import Mathlib

/-!
Verification of the ai-domain-finder batch enrichment pipeline.

This file gives a shallow embedding, in Lean, of the Python sources
(`models.py`, `csv_processor.py`, `domain_enrichment.py`, `job_manager.py`,
`searxng_client.py`) and proves or refutes the specification claims about
them.  External effects (HTTP probes, the search backend, the AI
adjudicator, JSON decoding of adjudicator output, wall-clock timing) are
passed in as explicit oracle parameters; everything else is translated
from the source line by line.  Floating point confidence scores are
modelled by `ℚ` (the only values the claims mention are exact constants
such as `0.0`).
-/

/-! ## Executable Python string primitives

The Lean core `String` operations (`trim`, `splitOn`, `toLower`, ...) are
implemented with well-founded recursion over byte positions, which the
kernel cannot evaluate; the Python string methods the sources use are
therefore modelled by structurally recursive functions over the
character list of the string, so every definition below evaluates by
`decide` / `rfl` on concrete inputs. -/

/-- Python `str.strip()`: drop leading and trailing whitespace. -/
def py_strip (s : String) : String :=
  (((s.toList.dropWhile Char.isWhitespace).reverse.dropWhile Char.isWhitespace).reverse).asString

/-- Python `str.split(sep)` for a single-character separator. -/
def py_split_on (sep : Char) (s : String) : List String :=
  (s.toList.splitOn sep).map List.asString

/-- Python `str.lower()`. -/
def py_lower (s : String) : String :=
  (s.toList.map Char.toLower).asString

/-- Python `len(s)` (a character count). -/
def py_len (s : String) : ℕ := s.toList.length

/-- Python `s.endswith(t)`. -/
def py_ends_with (s t : String) : Bool :=
  s.toList.drop (s.toList.length - t.toList.length) == t.toList

/-- Python `s[:-k]` for `0 < k`: drop the last `k` characters (empty when
`k ≥ len(s)`). -/
def py_drop_right (s : String) (k : ℕ) : String :=
  (s.toList.take (s.toList.length - k)).asString

/-- Does `n` occur as a contiguous run at the front of some suffix of the
second list?  (Helper for `py_in`.) -/
def sub_occurs (n : List Char) : List Char → Bool
  | [] => n == []
  | c :: cs => (c :: cs).take n.length == n || sub_occurs n cs

/-- Python's substring test `needle in hay`. -/
def py_in (needle hay : String) : Bool :=
  sub_occurs needle.toList hay.toList

/-! ## Data model (`models.py`) -/

/-- `CompanyAddress` from `models.py`.  Pydantic defaults (`street=None`,
`zip=None`, `country="US"`) are supplied explicitly at each construction
site. -/
structure CompanyAddress where
  street : Option String
  city : String
  state : String
  zip : Option String
  country : Option String
deriving Repr, DecidableEq

/-- `CompanyRequest` from `models.py`. -/
structure CompanyRequest where
  company_name : String
  address : CompanyAddress
deriving Repr, DecidableEq

/-- `DomainResponse` from `models.py`.  The free-form `metadata` dict is
not modelled (no claim mentions it). -/
structure DomainResponse where
  primary_domain : Option String
  confidence_score : ℚ
  search_queries_used : List String
  domains_considered : List String
  verification_status : String
  processing_time_ms : ℕ
deriving Repr, DecidableEq

/-- `SimpleDomainResponse` from `models.py` (a RowResult). -/
structure SimpleDomainResponse where
  primary_domain : Option String
  confidence_score : ℚ
  verification_status : String
  processing_time_ms : ℕ
deriving Repr, DecidableEq

/-- `JobStatus` from `models.py`. -/
inductive JobStatus where
  | pending
  | processing
  | completed
  | failed
deriving Repr, DecidableEq

/-- `JobStatusResponse` from `models.py`.  `completed_at` is carried as the
already-formatted timestamp string. -/
structure JobStatusResponse where
  job_id : String
  status : JobStatus
  progress : ℕ
  total : ℕ
  completed_at : Option String
  download_url : Option String
  errors : List String
deriving Repr, DecidableEq

/-! ## Domain verification (`domain_enrichment.py`, `verify_domain`) -/

/-- Outcome of one `httpx` HEAD probe: either a response with a status
code, or a raised exception (connection error / timeout). -/
inductive ProbeResult where
  | ok (status : ℕ)
  | exn
deriving Repr, DecidableEq

/-- Result of `verify_domain`: the returned status string, together with
whether the plain-HTTP probe was attempted (observable as the second
`http_client.head` call). -/
structure VerifyOutcome where
  status : String
  http_probed : Bool
deriving Repr, DecidableEq

/-- `DomainEnrichmentService.verify_domain` (domain_enrichment.py lines
207-229), with the two network probes passed in as oracles.  The HTTPS
probe is issued first; only if it *raises* does control reach the bare
`except:` and the HTTP probe.  A non-raising HTTPS response with
`status_code >= 400` returns `"inaccessible"` directly. -/
def verify_domain (https_probe http_probe : ProbeResult) : VerifyOutcome :=
  match https_probe with
  | .ok s => if s < 400 then ⟨"verified", false⟩ else ⟨"inaccessible", false⟩
  | .exn =>
    match http_probe with
    | .ok s => if s < 400 then ⟨"http_only", true⟩ else ⟨"inaccessible", true⟩
    | .exn => ⟨"unreachable", true⟩

/-! ## Location parsing (`csv_processor.py`, `parse_location`) -/

/-- `CSVProcessor.parse_location` (csv_processor.py lines 91-120).
`location_str = none` models Python `None`; the guard `if not
location_str` is Python truthiness, so it also catches the empty string. -/
def parse_location (location_str : Option String) : CompanyAddress :=
  match location_str with
  | none => ⟨none, "Unknown", "Unknown", none, some "US"⟩
  | some s =>
    if s = "" then ⟨none, "Unknown", "Unknown", none, some "US"⟩
    else
      let parts := (py_split_on ',' s).map py_strip
      if 2 ≤ parts.length then
        ⟨none, parts[0]!, parts[1]!, none,
          some (if 2 < parts.length then parts[2]! else "US")⟩
      else if parts.length = 1 then
        ⟨none, parts[0]!, "Unknown", none, some "US"⟩
      else
        ⟨none, "Unknown", "Unknown", none, some "US"⟩

/-! ## Company-name normalization and query generation
(`domain_enrichment.py`, `normalize_company_name`, `generate_search_queries`) -/

/-- The legal-entity suffixes stripped by `normalize_company_name`. -/
def legal_suffixes : List String :=
  ["Inc", "Corp", "Corporation", "LLC", "Ltd", "Limited", "Co", "Company"]

/-- `DomainEnrichmentService.normalize_company_name` (lines 85-94): strip,
then for each suffix in order drop it when the current value ends in
`" " ++ suffix`, then strip again. -/
def normalize_company_name (name : String) : String :=
  let normalized := py_strip name
  let normalized := legal_suffixes.foldl
    (fun n suf => if py_ends_with n (" " ++ suf) then py_drop_right n (py_len suf + 1) else n)
    normalized
  py_strip normalized

/-- `DomainEnrichmentService.generate_search_queries` (lines 66-83).  The
Python `list(set(...))` has unspecified order; it is modelled as
first-occurrence deduplication, which no claim depends on. -/
def generate_search_queries (company_name : String) (address : CompanyAddress) : List String :=
  let normalized_name := normalize_company_name company_name
  let city := address.city
  let state := address.state
  let queries := [
    "\"" ++ normalized_name ++ "\" official website",
    "\"" ++ normalized_name ++ "\" " ++ city ++ " " ++ state ++ " website",
    "\"" ++ normalized_name ++ "\" headquarters website",
    "\"" ++ normalized_name ++ "\" corporate site",
    normalized_name ++ " " ++ city ++ " company website",
    "\"" ++ company_name ++ "\" official domain"]
  (queries.filter (fun q => py_strip q ≠ "")).dedup

/-! ## AI adjudication (`domain_enrichment.py`, `analyze_results_with_ai`) -/

/-- A search hit, abstracted (the engine only forwards title/url/content
into the prompt, which no claim inspects). -/
abbrev SearchHit := String

/-- Outcome of the `httpx` POST to the OpenRouter chat-completions
endpoint: either a raised transport exception, or a response carrying a
status code and the message content string. -/
inductive AIOutcome where
  | transport_error (msg : String)
  | response (status : ℕ) (content : String)
deriving Repr, DecidableEq

/-- The adjudicator-output dictionary, with the keys the engine reads.
Each field is optional because `dict.get` tolerates absent keys. -/
structure AnalysisDict where
  primary_domain : Option String
  confidence_score : Option ℚ
  reasoning : Option String
  alternative_domains : Option (List String)
deriving Repr, DecidableEq

/-- Classification of `json.loads(content)`: decoding raises
`JSONDecodeError`, or yields a JSON value that is not a dict (e.g. a
list), or yields a dict. -/
inductive ParsedContent where
  | not_json
  | json_non_dict
  | json_dict (d : AnalysisDict)
deriving Repr, DecidableEq

/-- What `analyze_results_with_ai` returns: normally a dict, but when the
content decodes to non-dict JSON the code returns that raw value
unchanged (`return json.loads(content)`). -/
inductive AnalysisResult where
  | obj (d : AnalysisDict)
  | non_dict_json
deriving Repr, DecidableEq

/-- The short-circuit / degraded dicts built inline by the engine. -/
def analysis_failure_dict (reasoning : String) : AnalysisDict :=
  ⟨none, some 0, some reasoning, some []⟩

/-- `DomainEnrichmentService.analyze_results_with_ai` (lines 96-205).
`call_api` is the OpenRouter POST oracle and `parse_json` classifies
`json.loads` on the returned content.  The second component records
whether the adjudicator endpoint was invoked.  The empty-hits
short-circuit (lines 99-105) returns before any network call. -/
def analyze_results_with_ai (call_api : Unit → AIOutcome)
    (parse_json : String → ParsedContent)
    (search_results : List SearchHit) : AnalysisResult × Bool :=
  if search_results.isEmpty then
    (.obj (analysis_failure_dict "No search results available"), false)
  else
    match call_api () with
    | .response status content =>
      if status = 200 then
        match parse_json content with
        | .json_dict d => (.obj d, true)
        | .json_non_dict => (.non_dict_json, true)
        | .not_json => (.obj (analysis_failure_dict "Failed to parse AI response"), true)
      else
        (.obj (analysis_failure_dict ("AI API error: " ++ toString status)), true)
    | .transport_error msg =>
      (.obj (analysis_failure_dict ("Error: " ++ msg)), true)

/-! ## Full per-company workflow
(`domain_enrichment.py`, `process_company_request`) -/

/-- `DomainEnrichmentService.process_company_request` (lines 18-64).
Oracles: `search_fn` (the SearXNG search per query), `call_api` /
`parse_json` (adjudicator), the two verification probes, and the measured
elapsed time.  Returns `Except` because when the adjudicator output is
non-dict JSON the subsequent `domain_analysis.get(...)` raises
`AttributeError`.  The boolean records whether the adjudicator was
invoked.  `if domain_analysis.get('primary_domain')` is Python
truthiness: `None` and `""` are both falsy. -/
def process_company_request (search_fn : String → List SearchHit)
    (call_api : Unit → AIOutcome) (parse_json : String → ParsedContent)
    (https_probe http_probe : ProbeResult) (elapsed_ms : ℕ)
    (request : CompanyRequest) : Except String (DomainResponse × Bool) :=
  match analyze_results_with_ai call_api parse_json
      (((generate_search_queries request.company_name request.address).map
        search_fn).flatten) with
  | (.non_dict_json, _) => .error "AttributeError"
  | (.obj d, invoked) =>
    .ok (⟨d.primary_domain, d.confidence_score.getD 0,
          generate_search_queries request.company_name request.address,
          d.alternative_domains.getD [],
          (match d.primary_domain with
           | some dom =>
             if dom = "" then "no_domain_found" else (verify_domain https_probe http_probe).status
           | none => "no_domain_found"),
          elapsed_ms⟩, invoked)

/-! ## Row-level enrichment boundary (`csv_processor.py`, `process_single_row`) -/

/-- `CSVProcessor.process_single_row` (csv_processor.py lines 122-154).
The engine call is passed as an oracle that may raise (`Except.error`).
On any exception the boundary returns the degraded row result with
verification status `"error"` (the literal in line 152). -/
def process_single_row (engine : CompanyRequest → Except String DomainResponse)
    (company_name : String) (location : Option String) : SimpleDomainResponse :=
  match engine ⟨company_name, parse_location location⟩ with
  | .ok full =>
    ⟨full.primary_domain, full.confidence_score, full.verification_status,
      full.processing_time_ms⟩
  | .error _ => ⟨none, 0, "error", 0⟩

/-! ## Search gateway (`searxng_client.py`, `SearXNGClient.search`) -/

/-- The mutable part of a `SearXNGClient`: its current default endpoint
and the fixed fallback list set in `__init__`. -/
structure SearXNGState where
  base_url : String
  fallback_instances : List String
deriving Repr, DecidableEq

/-- The client state as constructed by `SearXNGClient.__init__` (lines
8-14) for a given primary url. -/
def searxng_init (url : String) : SearXNGState :=
  ⟨url, ["https://searx.org", "https://searx.space"]⟩

/-- The fallback loop of `SearXNGClient.search` (lines 26-36).  `perform`
is the `_perform_search` oracle keyed by the endpoint it is issued
against (query and limit are fixed for the call).  Each iteration saves
`original_url := self.base_url`, mutates `base_url` to the fallback, and
restores only on the success path: an exception jumps to the handler and
`continue`s with `base_url` still set to the failed fallback. -/
def search_fallback_loop (perform : String → Except String (List SearchHit)) :
    SearXNGState → List String → List SearchHit × SearXNGState
  | st, [] => ([], st)
  | st, fb :: rest =>
    let original_url := st.base_url
    let st1 : SearXNGState := ⟨fb, st.fallback_instances⟩
    match perform st1.base_url with
    | .ok r => (r, ⟨original_url, st1.fallback_instances⟩)
    | .error _ => search_fallback_loop perform st1 rest

/-- `SearXNGClient.search` (searxng_client.py lines 16-39): try the
primary endpoint; on any exception walk the fallback list; when every
instance fails return `[]`. -/
def search (perform : String → Except String (List SearchHit))
    (st : SearXNGState) : List SearchHit × SearXNGState :=
  match perform st.base_url with
  | .ok r => (r, st)
  | .error _ => search_fallback_loop perform st st.fallback_instances

/-! ## Job manager (`job_manager.py`) -/

/-- One entry of `JobManager.jobs` with the fields the claims observe.
The `dataframe` / `detected_columns` snapshot is not needed by the job
query operations modelled below. -/
structure Job where
  status : JobStatus
  progress : ℕ
  total : ℕ
  completed_at : Option String
  errors : List String
deriving Repr, DecidableEq

/-- `JobManager`'s two dicts, as association lists. -/
structure JobManagerState where
  jobs : List (String × Job)
  results_cache : List (String × String)
deriving Repr, DecidableEq

/-- `JobManager.get_job_status` (job_manager.py lines 38-53). -/
def get_job_status (st : JobManagerState) (job_id : String) : Option JobStatusResponse :=
  match st.jobs.lookup job_id with
  | none => none
  | some job =>
    some ⟨job_id, job.status, job.progress, job.total, job.completed_at,
      if job.status = JobStatus.completed then some ("/download/" ++ job_id) else none,
      job.errors⟩

/-- `JobManager.get_result_csv` (job_manager.py lines 135-144): unknown id
→ `None`; job not completed → `None`; else `results_cache.get(job_id)`. -/
def get_result_csv (st : JobManagerState) (job_id : String) : Option String :=
  match st.jobs.lookup job_id with
  | none => none
  | some job =>
    if job.status = JobStatus.completed then st.results_cache.lookup job_id else none

/-! ## The per-row loop of `JobManager.process_job` (lines 74-117)

Each row of the input table is classified by what the loop body does with
it: the company-name cell is NaN or strips to empty (`empty_name`), or
`process_single_row` returns a result (`processed r`), or the body raises
and the `except` branch records a `"processing_error"` row (`row_error`).

The crucial aliasing detail: `create_job` stores a fresh `[]` in
`job['results']`; the loop accumulates into a *local* list `results` and
re-binds `job['results'] = results` in the processed and error branches —
but NOT in the empty-name branch, which only appends to the local list
and increments `progress`.  Until the first re-binding, a status/results
snapshot still sees the original empty list from `create_job`; after it,
`job['results']` aliases the local list and tracks it exactly. -/

/-- How the loop body disposes of one row. -/
inductive RowOutcome where
  | empty_name
  | processed (r : SimpleDomainResponse)
  | row_error
deriving Repr, DecidableEq

/-- The placeholder row recorded for an empty company-name cell
(job_manager.py lines 80-85). -/
def empty_input_result : SimpleDomainResponse := ⟨none, 0, "empty_input", 0⟩

/-- The row recorded when the loop body raises (lines 109-114). -/
def processing_error_result : SimpleDomainResponse := ⟨none, 0, "processing_error", 0⟩

/-- Mid-loop state of `process_job`: the `progress` counter, the local
`results` list, and whether `job['results'] = results` has executed yet. -/
structure JobLoopState where
  progress : ℕ
  local_results : List SimpleDomainResponse
  job_results_assigned : Bool
deriving Repr, DecidableEq

/-- One iteration of the row loop. -/
def process_job_step (s : JobLoopState) (row : RowOutcome) : JobLoopState :=
  match row with
  | .empty_name => ⟨s.progress + 1, s.local_results ++ [empty_input_result], s.job_results_assigned⟩
  | .processed r => ⟨s.progress + 1, s.local_results ++ [r], true⟩
  | .row_error => ⟨s.progress + 1, s.local_results ++ [processing_error_result], true⟩

/-- State when the loop starts (after `create_job` set `progress = 0`,
`results = []`, and before any re-binding of `job['results']`). -/
def initial_loop_state : JobLoopState := ⟨0, [], false⟩

/-- The loop state after processing a given list of rows. -/
def run_rows (rows : List RowOutcome) : JobLoopState :=
  rows.foldl process_job_step initial_loop_state

/-- The length of the job's accumulated RowResult list as a concurrent
status/results snapshot observes it: `job['results']` is the empty list
from `create_job` until the first `job['results'] = results` re-binding,
and aliases the local list afterwards. -/
def observed_results_len (s : JobLoopState) : ℕ :=
  if s.job_results_assigned then s.local_results.length else 0

/-! ## Column detection and output rendering (`csv_processor.py`) -/

/-- The per-column facts `detect_columns` inspects: the column label, its
dtype (`object` or not), and whether every cell is NA. -/
structure PColumn where
  name : String
  is_object : Bool
  all_na : Bool
deriving Repr, DecidableEq

/-- The `pattern in col.lower()` test of `detect_columns`. -/
def substr_in (needle hay : String) : Bool :=
  py_in needle (py_lower hay)

/-- The company-name keyword list of `detect_columns` (lines 23-26). -/
def company_name_patterns : List String :=
  ["company", "company_name", "name", "business_name",
   "organization", "org", "firm", "entity"]

/-- The company-name half of `CSVProcessor.detect_columns` (csv_processor.py
lines 21-39): first keyword whose lowercase-substring match list is
nonempty wins and contributes its first matching column; otherwise fall
back to the first `object`-dtype column that is not all-NA. -/
def detect_company_column (cols : List PColumn) : Option String :=
  match company_name_patterns.findSome? (fun p =>
      (cols.filter (fun c => substr_in p c.name)).head?.map PColumn.name) with
  | some c => some c
  | none => (cols.find? (fun c => c.is_object && !c.all_na)).map PColumn.name

/-- The labels of the four result columns assigned by
`prepare_output_csv` (lines 200-204). -/
def result_column_names : List String :=
  ["primary_domain", "confidence_score", "verification_status", "processing_time_ms"]

/-- One pandas column assignment `df[label] = values` (csv_processor.py
lines 201-204): when a column with that label already exists it is
overwritten in place (its position kept, its dtype/NA facts replaced by
the assigned column's); otherwise the new column is appended at the
end. -/
def assign_column (cols : List PColumn) (c : PColumn) : List PColumn :=
  if cols.any (fun col => col.name == c.name) then
    cols.map (fun col => if col.name == c.name then c else col)
  else
    cols ++ [c]

/-- The column structure of the artifact rendered by
`CSVProcessor.prepare_output_csv` (lines 193-207): a copy of the original
columns updated by the four result-column assignments, in source order.
`meta` supplies the dtype / NA facts each assigned column carries after
the CSV round-trip (they depend on the enrichment results); the claims
must hold for every such valuation. -/
def prepare_output_csv_cols (orig : List PColumn) (meta : String → Bool × Bool) : List PColumn :=
  result_column_names.foldl
    (fun acc n => assign_column acc ⟨n, (meta n).1, (meta n).2⟩) orig

/-! # Claims -/

/-! ## C1 — verification status mapping -/

/-- C1 counterexample: the claim asserts that an HTTPS response with
status ≥ 400 is followed by an HTTP probe, and that HTTPS 404 + HTTP 200
yields `"http_only"`.  In the code a non-raising HTTPS response with
status 404 returns `"inaccessible"` at once and the HTTP probe is never
attempted (`http_probed = false`), even when that probe would have
answered 200. -/
theorem C1_counterexample :
    verify_domain (.ok 404) (.ok 200) = ⟨"inaccessible", false⟩ ∧
    (verify_domain (.ok 404) (.ok 200)).status ≠ "http_only" ∧
    (verify_domain (.ok 404) (.ok 200)).http_probed = false := by
  decide

/-- C1 (amended): the probe outcome maps to a status as follows.  An HTTPS
response (no exception) with status < 400 yields `"verified"`, and with
status ≥ 400 yields `"inaccessible"` with no HTTP probe attempted.  Only
when the HTTPS probe raises (error/timeout) is the HTTP probe attempted:
HTTP status < 400 yields `"http_only"`, HTTP status ≥ 400 yields
`"inaccessible"`, and an HTTP error/timeout yields `"unreachable"`. -/
theorem C1_verify_domain_status_map (hp : ProbeResult) (s : ℕ) :
    verify_domain (.ok s) hp =
      (if s < 400 then ⟨"verified", false⟩ else ⟨"inaccessible", false⟩) ∧
    verify_domain .exn (.ok s) =
      (if s < 400 then ⟨"http_only", true⟩ else ⟨"inaccessible", true⟩) ∧
    verify_domain .exn .exn = ⟨"unreachable", true⟩ :=
  ⟨rfl, rfl, rfl⟩

/-! ## C3 — row-level enrichment boundary on engine exception -/

/-- An engine oracle that always raises. -/
def failing_engine : CompanyRequest → Except String DomainResponse :=
  fun _ => .error "boom"

/-- C3 counterexample: when the engine raises, `process_single_row`
returns verification status `"error"` (csv_processor.py line 152), not
`"processing_error"` as the claim states.  (`"processing_error"` is the
status used one layer up, by `process_job`'s own per-row handler.) -/
theorem C3_counterexample :
    (process_single_row failing_engine "Acme" none).verification_status = "error" ∧
    (process_single_row failing_engine "Acme" none).verification_status ≠ "processing_error" := by
  decide

/-- C3 (amended): for every company name and optional location, if the
enrichment engine call raises, `process_single_row` does not propagate
the exception and returns a RowResult with primary domain `none`,
confidence `0.0`, verification status `"error"`, and duration `0`. -/
theorem C3_engine_exception_boundary
    (engine : CompanyRequest → Except String DomainResponse)
    (company_name : String) (location : Option String) (e : String)
    (h : engine ⟨company_name, parse_location location⟩ = .error e) :
    process_single_row engine company_name location = ⟨none, 0, "error", 0⟩ := by
  simp [process_single_row, h]

/-- C3 witness: the amended theorem applied to the always-raising engine. -/
theorem C3_engine_exception_boundary_witness :
    process_single_row failing_engine "Acme" none = ⟨none, 0, "error", 0⟩ :=
  C3_engine_exception_boundary failing_engine "Acme" none "boom" rfl

/-! ## C6 — location parsing -/

/-- C6: `parse_location` splits on commas and strips each part: with ≥ 2
parts, city/state are the first two and country the third if present else
`"US"`; with exactly 1 part, city is that part, state `"Unknown"`,
country `"US"`; with the string absent or empty, city and state are
`"Unknown"` and country `"US"`; and `"Zurich, Switzerland"` parses to
city `"Zurich"`, state `"Switzerland"`, country `"US"`. -/
theorem C6_parse_location_spec :
    parse_location none = ⟨none, "Unknown", "Unknown", none, some "US"⟩ ∧
    parse_location (some "") = ⟨none, "Unknown", "Unknown", none, some "US"⟩ ∧
    (∀ s : String, s ≠ "" →
      (2 ≤ ((py_split_on ',' s).map py_strip).length →
        parse_location (some s) =
          ⟨none, ((py_split_on ',' s).map py_strip)[0]!,
            ((py_split_on ',' s).map py_strip)[1]!, none,
            some (if 2 < ((py_split_on ',' s).map py_strip).length
                  then ((py_split_on ',' s).map py_strip)[2]! else "US")⟩) ∧
      (((py_split_on ',' s).map py_strip).length = 1 →
        parse_location (some s) =
          ⟨none, ((py_split_on ',' s).map py_strip)[0]!, "Unknown", none, some "US"⟩)) ∧
    parse_location (some "Zurich, Switzerland") =
      ⟨none, "Zurich", "Switzerland", none, some "US"⟩ := by
  refine ⟨rfl, rfl, fun s hs => ⟨fun h2 => ?_, fun h1 => ?_⟩, by decide⟩
  · simp only [parse_location, if_neg hs, if_pos h2]
  · simp only [parse_location, if_neg hs]
    rw [if_neg (by omega), if_pos h1]

/-- C6 witness: the one-part branch of the theorem at `"Austin"`. -/
theorem C6_parse_location_spec_witness :
    parse_location (some "Austin") =
      ⟨none, ((py_split_on ',' "Austin").map py_strip)[0]!, "Unknown", none, some "US"⟩ :=
  (C6_parse_location_spec.2.2.1 "Austin" (by decide)).2 (by decide)

/-! ## C2 — job progress/results invariant -/

/-- C2: the claimed invariant `len(job results) == progress` fails at the
first snapshot of a job whose leading row has an empty company-name
cell.  After that row the loop has incremented `progress` to 1 and
appended the `"empty_input"` placeholder to its local list, but the
empty-name branch (unlike the processed and error branches) never
re-binds `job['results'] = results`, so a status/results snapshot still
sees the empty list stored by `create_job`: its length is 0 ≠ 1. -/
theorem C2_failing_input_eval :
    (run_rows [RowOutcome.empty_name]).progress = 1 ∧
    observed_results_len (run_rows [RowOutcome.empty_name]) = 0 ∧
    (run_rows [RowOutcome.empty_name]).local_results.length = 1 := by
  decide

/-! ## C4 — fallback loop endpoint restoration -/

/-- A `_perform_search` oracle for which the primary endpoint and the
first fallback raise (connection failure) and the second fallback
succeeds. -/
def flaky_perform : String → Except String (List SearchHit) :=
  fun url => if url = "https://searx.space" then .ok ["hit"] else .error "connect timeout"

/-- A `_perform_search` oracle for which every endpoint raises. -/
def dead_perform : String → Except String (List SearchHit) :=
  fun _ => .error "connect timeout"

/-- C4: `base_url` is *not* restored to the primary endpoint after a
fallback attempt that raises — the restore statement sits after the
`_perform_search` call inside `try`, so an exception skips it and the
loop continues with `base_url` still pointing at the failed fallback.
With primary and first fallback down and the second fallback up, the
call returns with `base_url = "https://searx.org"` (the value saved at
the start of the *second* iteration), and with every instance down it
returns with `base_url = "https://searx.space"`; in both cases the
endpoint state differs from the primary `"https://searx.be"`. -/
theorem C4_failing_input_eval :
    (search flaky_perform (searxng_init "https://searx.be")).2.base_url = "https://searx.org" ∧
    (search dead_perform (searxng_init "https://searx.be")).2.base_url = "https://searx.space" ∧
    "https://searx.org" ≠ "https://searx.be" ∧
    "https://searx.space" ≠ "https://searx.be" := by
  decide

/-! ## C9 — gating of the output artifact -/

/-- C9: `get_result_csv` returns the cached artifact only for an existing
job in `completed` status: an unknown id yields `none`, a job in any
other status yields `none`, and any returned artifact implies the job
exists and is `completed` (in which case the value is exactly the cache
lookup). -/
theorem C9_get_result_csv_gating (st : JobManagerState) (job_id : String) :
    (st.jobs.lookup job_id = none → get_result_csv st job_id = none) ∧
    (∀ job, st.jobs.lookup job_id = some job → job.status ≠ JobStatus.completed →
      get_result_csv st job_id = none) ∧
    (∀ job, st.jobs.lookup job_id = some job → job.status = JobStatus.completed →
      get_result_csv st job_id = st.results_cache.lookup job_id) ∧
    (∀ csv, get_result_csv st job_id = some csv →
      ∃ job, st.jobs.lookup job_id = some job ∧ job.status = JobStatus.completed) := by
  refine ⟨fun h => by simp [get_result_csv, h],
    fun job h hne => by simp [get_result_csv, h, hne],
    fun job h hc => by simp [get_result_csv, h, hc],
    fun csv h => ?_⟩
  unfold get_result_csv at h
  split at h
  · cases h
  · rename_i job hl
    by_cases hs : job.status = JobStatus.completed
    · exact ⟨job, hl, hs⟩
    · rw [if_neg hs] at h; cases h

/-- A failed job with a (stale) cache entry, for the witnesses. -/
def demo_failed_job : Job := ⟨JobStatus.failed, 1, 2, none, ["boom"]⟩

/-- A job store holding only the failed job, with a cached artifact under
the same id. -/
def demo_state : JobManagerState := ⟨[("j1", demo_failed_job)], [("j1", "a,b\n")]⟩

/-- C9 witness: a failed job exposes no artifact even though the cache
holds one under its id. -/
theorem C9_get_result_csv_gating_witness :
    get_result_csv demo_state "j1" = none :=
  (C9_get_result_csv_gating demo_state "j1").2.1 demo_failed_job rfl (by decide)

/-! ## C10 — download_url iff completed -/

/-- C10: `get_job_status` returns `none` for an unknown job id, and for an
existing job returns a snapshot whose `download_url` is non-null exactly
when the job status is `completed` (in which case it is
`"/download/" ++ job_id`). -/
theorem C10_download_url_iff_completed (st : JobManagerState) (jid : String) :
    (st.jobs.lookup jid = none → get_job_status st jid = none) ∧
    (∀ job, st.jobs.lookup jid = some job →
      ∃ r, get_job_status st jid = some r ∧
        ((r.download_url ≠ none) ↔ job.status = JobStatus.completed) ∧
        (job.status = JobStatus.completed → r.download_url = some ("/download/" ++ jid))) := by
  refine ⟨fun h => by simp [get_job_status, h], fun job h => ?_⟩
  refine ⟨⟨jid, job.status, job.progress, job.total, job.completed_at,
    if job.status = JobStatus.completed then some ("/download/" ++ jid) else none,
    job.errors⟩, by simp [get_job_status, h], ?_, ?_⟩
  · by_cases hs : job.status = JobStatus.completed <;> simp [hs]
  · intro hs; simp [hs]

/-- C10 witness: the theorem at an id absent from the job store. -/
theorem C10_download_url_iff_completed_witness :
    get_job_status demo_state "nope" = none :=
  (C10_download_url_iff_completed demo_state "nope").1 rfl

/-! ## C5 — zero hits short-circuit -/

/-- C5: when every issued search query returns zero hits, the enrichment
result has primary domain `none`, confidence `0.0`, verification status
`"no_domain_found"`, and the adjudicator endpoint is never invoked (the
invoked flag of the call is `false`). -/
theorem C5_no_hits_short_circuit (search_fn : String → List SearchHit)
    (call_api : Unit → AIOutcome) (parse_json : String → ParsedContent)
    (https_probe http_probe : ProbeResult) (elapsed_ms : ℕ) (request : CompanyRequest)
    (h : ∀ q ∈ generate_search_queries request.company_name request.address, search_fn q = []) :
    process_company_request search_fn call_api parse_json https_probe http_probe
        elapsed_ms request =
      .ok (⟨none, 0, generate_search_queries request.company_name request.address, [],
            "no_domain_found", elapsed_ms⟩, false) := by
  have hflat : ((generate_search_queries request.company_name request.address).map
      search_fn).flatten = [] := by
    rw [List.flatten_eq_nil_iff]
    intro l hl
    rcases List.mem_map.mp hl with ⟨q, hq, rfl⟩
    exact h q hq
  unfold process_company_request
  rw [hflat]
  rfl

/-- A search oracle with no hits for any query. -/
def no_hit_search : String → List SearchHit := fun _ => []

/-- A concrete request (no location supplied). -/
def demo_request : CompanyRequest := ⟨"Acme", parse_location none⟩

/-- An adjudicator oracle (never reached in the C5 witness). -/
def demo_api : Unit → AIOutcome := fun _ => .transport_error "unused"

/-- A JSON-classification oracle (never reached in the C5 witness). -/
def demo_parse : String → ParsedContent := fun _ => ParsedContent.not_json

/-- C5 witness: the theorem at a concrete request whose every query
returns zero hits. -/
theorem C5_no_hits_short_circuit_witness :
    process_company_request no_hit_search demo_api demo_parse .exn .exn 0 demo_request =
      .ok (⟨none, 0, generate_search_queries demo_request.company_name demo_request.address,
            [], "no_domain_found", 0⟩, false) :=
  C5_no_hits_short_circuit no_hit_search demo_api demo_parse .exn .exn 0 demo_request
    (fun _ _ => rfl)

/-! ## C7 — adjudicator failure degradation -/

/-- An adjudicator oracle answering 200 with content that is valid JSON
but not an object. -/
def cx_api : Unit → AIOutcome := fun _ => .response 200 "[1, 2]"

/-- The JSON classification of that content: `"[1, 2]"` decodes to a
list, every other content is treated as undecodable. -/
def cx_parse : String → ParsedContent :=
  fun c => if c = "[1, 2]" then .json_non_dict else .not_json

/-- C7 counterexample: the content `"[1, 2]"` cannot be parsed as the
expected JSON shape (it decodes to a list, not a dict), yet the engine
does not degrade to a null-domain/0.0 result: `json.loads` succeeds, so
the code returns the raw non-dict value unchanged (the `except` only
catches `JSONDecodeError`).  The claimed degraded dict is not returned. -/
theorem C7_counterexample :
    (analyze_results_with_ai cx_api cx_parse ["hit"]).1 = .non_dict_json ∧
    (analyze_results_with_ai cx_api cx_parse ["hit"]).1 ≠
      .obj (analysis_failure_dict "Failed to parse AI response") ∧
    (analyze_results_with_ai cx_api cx_parse ["hit"]).1 ≠
      .obj ⟨none, some 0, some "Failed to parse AI response", some []⟩ := by
  decide

/-- C7 (amended): for every adjudicator invocation (issued on a nonempty
hit list) that fails with a non-2xx response or a transport error, or
whose output cannot be decoded as JSON at all, the engine returns
primary domain `none` and confidence `0.0`, with a reasoning string that
distinguishes the three failure modes (`"Failed to parse AI response"`,
`"AI API error: <code>"`, `"Error: <message>"`), and no exception is
raised past the engine boundary; output that decodes to non-dict JSON is
instead returned unchanged. -/
theorem C7_adjudicator_failure_modes (call_api : Unit → AIOutcome)
    (parse_json : String → ParsedContent) (results : List SearchHit)
    (hres : results ≠ []) :
    (∀ s c, call_api () = .response s c → ¬(200 ≤ s ∧ s ≤ 299) →
      analyze_results_with_ai call_api parse_json results =
        (.obj (analysis_failure_dict ("AI API error: " ++ toString s)), true)) ∧
    (∀ m, call_api () = .transport_error m →
      analyze_results_with_ai call_api parse_json results =
        (.obj (analysis_failure_dict ("Error: " ++ m)), true)) ∧
    (∀ c, call_api () = .response 200 c → parse_json c = .not_json →
      analyze_results_with_ai call_api parse_json results =
        (.obj (analysis_failure_dict "Failed to parse AI response"), true)) ∧
    (∀ r, (analysis_failure_dict r).primary_domain = none ∧
      (analysis_failure_dict r).confidence_score = some 0) := by
  have hne : results.isEmpty = false := by simpa [List.isEmpty_eq_false] using hres
  refine ⟨fun s c hc hs => ?_, fun m hm => ?_, fun c hc hp => ?_, fun r => ⟨rfl, rfl⟩⟩
  · have h200 : s ≠ 200 := by omega
    simp [analyze_results_with_ai, hne, hc, h200]
  · simp [analyze_results_with_ai, hne, hm]
  · simp [analyze_results_with_ai, hne, hc, hp]

/-- An adjudicator oracle answering status 500. -/
def err_api : Unit → AIOutcome := fun _ => .response 500 "oops"

/-- C7 witness: the API-error mode of the amended theorem at status 500. -/
theorem C7_adjudicator_failure_modes_witness :
    analyze_results_with_ai err_api cx_parse ["hit"] =
      (.obj (analysis_failure_dict ("AI API error: " ++ toString 500)), true) :=
  (C7_adjudicator_failure_modes err_api cx_parse ["hit"] (by decide)).1 500 "oops" rfl
    (by omega)

/-! ## C8 — output rendering and column re-detection

The rendered artifact is modelled at column level: the original table's
columns (whose labels, dtypes and NA-facts the CSV round-trip
reproduces, the original table itself being the result of
`pd.read_csv`) are updated by the four result-column assignments of
`prepare_output_csv`; a pandas assignment overwrites an existing column
of the same label in place and otherwise appends at the end. -/

/-- `List.findSome?` is determined by the values of the function on the
list's members. -/
lemma findSome_congr_of_mem {α β : Type} (f g : α → Option β) (l : List α)
    (h : ∀ a ∈ l, f a = g a) : l.findSome? f = l.findSome? g := by
  induction l with
  | nil => rfl
  | cons x xs ih =>
    rw [List.findSome?_cons, List.findSome?_cons, h x (List.mem_cons_self x xs)]
    cases g x with
    | none => exact ih (fun a ha => h a (List.mem_cons_of_mem x ha))
    | some b => rfl

/-- No company-name detection keyword occurs in any of the four result
column labels. -/
lemma patterns_not_in_result_names :
    ∀ p ∈ company_name_patterns, ∀ n ∈ result_column_names, substr_in p n = false := by
  decide

/-- Filtering the four result columns by any company-name keyword yields
nothing, whatever their dtype/NA facts. -/
lemma filter_result_cols_nil (p : String) (hp : p ∈ company_name_patterns)
    (meta : String → Bool × Bool) :
    ((result_column_names.map (fun n => (⟨n, (meta n).1, (meta n).2⟩ : PColumn))).filter
      (fun col => substr_in p col.name)) = [] := by
  rw [List.filter_eq_nil_iff]
  intro col hc
  rcases List.mem_map.mp hc with ⟨n, hn, rfl⟩
  simp [patterns_not_in_result_names p hp n hn]

/-- `List.find?` on an appended list returns the hit found in the front
part. -/
lemma find_append_of_some {α : Type} (p : α → Bool) (l₁ l₂ : List α) (a : α)
    (h : l₁.find? p = some a) : (l₁ ++ l₂).find? p = some a := by
  rw [List.find?_append, h]
  rfl

/-- A pandas assignment whose label collides with no existing column is
a pure append. -/
lemma assign_column_of_fresh (cols : List PColumn) (c : PColumn)
    (h : ∀ col ∈ cols, col.name ≠ c.name) : assign_column cols c = cols ++ [c] := by
  have hany : cols.any (fun col => col.name == c.name) = false := by
    rw [List.any_eq_false]
    intro col hcol
    simpa using h col hcol
  unfold assign_column
  rw [hany]
  rfl

/-- Folding label-fresh, pairwise-distinct assignments over a column list
appends the assigned columns in order. -/
lemma foldl_assign_of_fresh (names : List String) (meta : String → Bool × Bool) :
    ∀ cols : List PColumn, names.Nodup →
    (∀ n ∈ names, ∀ col ∈ cols, col.name ≠ n) →
    names.foldl (fun acc n => assign_column acc ⟨n, (meta n).1, (meta n).2⟩) cols
      = cols ++ names.map (fun n => ⟨n, (meta n).1, (meta n).2⟩) := by
  induction names with
  | nil =>
    intro cols _ _
    simp
  | cons n ns ih =>
    intro cols hnd hdisj
    have hfresh : ∀ m ∈ ns,
        ∀ col ∈ cols ++ [(⟨n, (meta n).1, (meta n).2⟩ : PColumn)], col.name ≠ m := by
      intro m hm col hcol
      rcases List.mem_append.mp hcol with hc | hc
      · exact hdisj m (List.mem_cons_of_mem n hm) col hc
      · have hcn : col = ⟨n, (meta n).1, (meta n).2⟩ := List.mem_singleton.mp hc
        subst hcn
        intro hEq
        exact (List.nodup_cons.mp hnd).1 (by rw [show n = m from hEq]; exact hm)
    rw [List.foldl_cons, List.map_cons,
      assign_column_of_fresh cols ⟨n, (meta n).1, (meta n).2⟩
        (fun col hcol => hdisj n (List.mem_cons_self n ns) col hcol)]
    rw [ih _ (List.nodup_cons.mp hnd).2 hfresh]
    simp

/-- When no original label collides with the four result labels, the
rendered artifact's columns are the originals followed by the four
result columns. -/
lemma prepare_output_append_of_fresh (orig : List PColumn) (meta : String → Bool × Bool)
    (hdisj : ∀ col ∈ orig, ¬ col.name ∈ result_column_names) :
    prepare_output_csv_cols orig meta
      = orig ++ result_column_names.map (fun n => ⟨n, (meta n).1, (meta n).2⟩) := by
  unfold prepare_output_csv_cols
  exact foldl_assign_of_fresh result_column_names meta orig (by decide)
    (fun n hn col hcol hEq => hdisj col hcol (by rw [hEq]; exact hn))

/-- An in-scope input table: a numeric `verification_status` column
followed by an object `desc` column holding the company names.  No
detection keyword matches either label, so detection falls back to the
first object column, `desc`. -/
def cx_orig : List PColumn := [⟨"verification_status", false, false⟩, ⟨"desc", true, false⟩]

/-- The dtype/NA facts of the assigned result columns after the
round-trip: object dtype, no NAs (status strings are never empty). -/
def cx_meta : String → Bool × Bool := fun _ => (true, false)

/-- C8 counterexample: on a valid table whose `desc` column is the
detected company-name column, rendering does *not* merely append — the
assignment `output_df['verification_status'] = [...]` overwrites the
original numeric `verification_status` column in place, turning it into
the table's first object column, and re-detection's fallback now picks
it instead of `desc`.  The original claim fails on this in-scope
input. -/
theorem C8_counterexample :
    detect_company_column cx_orig = some "desc" ∧
    detect_company_column (prepare_output_csv_cols cx_orig cx_meta) =
      some "verification_status" ∧
    ("verification_status" : String) ≠ "desc" := by
  decide

/-- C8 (amended): for every input table with a detected company-name
column and no original column labelled with one of the four result
labels (`primary_domain`, `confidence_score`, `verification_status`,
`processing_time_ms`), running column detection on the rendered artifact
(under every dtype/NA valuation of the assigned columns) identifies the
same original company-name column — the result columns, then genuinely
appended, never shadow the original detection.  When an original label
does collide, the assignment overwrites that column in place and the
detection can change, as the counterexample shows. -/
theorem C8_roundtrip_column_detection (orig : List PColumn) (meta : String → Bool × Bool)
    (c : String) (hdisj : ∀ col ∈ orig, ¬ col.name ∈ result_column_names)
    (h : detect_company_column orig = some c) :
    detect_company_column (prepare_output_csv_cols orig meta) = some c := by
  rw [prepare_output_append_of_fresh orig meta hdisj]
  have hcongr : company_name_patterns.findSome? (fun p =>
      (((orig ++ result_column_names.map fun n => (⟨n, (meta n).1, (meta n).2⟩ : PColumn)).filter
        (fun col => substr_in p col.name)).head?.map PColumn.name))
      = company_name_patterns.findSome? (fun p =>
        ((orig.filter (fun col => substr_in p col.name)).head?.map PColumn.name)) := by
    apply findSome_congr_of_mem
    intro p hp
    rw [List.filter_append, filter_result_cols_nil p hp meta, List.append_nil]
  unfold detect_company_column at h ⊢
  rw [hcongr]
  cases hfs : company_name_patterns.findSome? (fun p =>
      ((orig.filter (fun col => substr_in p col.name)).head?.map PColumn.name)) with
  | some a =>
    rw [hfs] at h
    exact h
  | none =>
    rw [hfs] at h
    have h' : (orig.find? fun col => col.is_object && !col.all_na).map PColumn.name = some c := h
    rcases Option.map_eq_some'.mp h' with ⟨col, hfind, hname⟩
    show ((orig ++ result_column_names.map fun n => (⟨n, (meta n).1, (meta n).2⟩ : PColumn)).find?
        fun col => col.is_object && !col.all_na).map PColumn.name = some c
    rw [find_append_of_some _ _ _ _ hfind]
    simp [hname]

/-- C8 witness: a two-column table whose company column is `"Company"`
and whose labels avoid the four result labels, rendered with the
assigned columns re-read as object dtype. -/
theorem C8_roundtrip_column_detection_witness :
    detect_company_column (prepare_output_csv_cols
      [⟨"Company", true, false⟩, ⟨"HQ Location", true, false⟩] (fun _ => (true, false))) =
      some "Company" :=
  C8_roundtrip_column_detection [⟨"Company", true, false⟩, ⟨"HQ Location", true, false⟩]
    (fun _ => (true, false)) "Company" (by decide) (by decide)
